import Mathlib

/-!
Verification of the ray_lightning accelerator wiring layer.

Shallow embedding of src/ray_lightning/ray_horovod.py and
src/ray_lightning/tune.py.  External framework behaviour (the PyTorch
Lightning training loop, Horovod rank assignment) is passed in as
parameters; repository code that is referenced but not included
(session.py, util.py) is modelled from the specification and marked as
such in doc comments.
-/

namespace RayLightning

/-- A scalar-holding tensor from the host framework: `item` extracts the
scalar, mirroring `torch.Tensor.item()`. -/
structure Tensor where
  val : Int
deriving DecidableEq

def Tensor.item (t : Tensor) : Int := t.val

/-- The model weights blob: `state_dict` serializes, `load_state_dict`
overwrites the weights with a previously serialized blob. -/
structure Model where
  weights : Nat
deriving DecidableEq

def Model.state_dict (m : Model) : Nat := m.weights

def Model.load_state_dict (_m : Model) (sd : Nat) : Model := ⟨sd⟩

/-- The checkpoint connector of the trainer; `dump_checkpoint` computes the
full checkpoint snapshot from the trainer state. -/
structure CheckpointConnector where
  checkpoint_data : Nat
deriving DecidableEq

def CheckpointConnector.dump_checkpoint (c : CheckpointConnector) : Nat :=
  c.checkpoint_data

/-- The checkpoint callback configured on a trainer (a ModelCheckpoint in
the host framework); its `best_model_path` attribute may be unset (None). -/
structure ModelCheckpoint where
  best_model_path : Option String
deriving DecidableEq

/-- The parts of the host framework Trainer object that the repository
code reads or writes. -/
structure Trainer where
  model : Model
  checkpoint_callback : Option ModelCheckpoint
  on_gpu : Bool
  root_gpu : Nat
  running_sanity_check : Bool
  callback_metrics : List (String × Tensor)
  checkpoint_connector : CheckpointConnector
  global_step : Nat
deriving DecidableEq

/-- The opaque metrics object returned by the framework training loop. -/
abbrev Metrics := Nat

/-- An action enqueued on the relay queue.  In the source these are
zero-argument closures; `report` captures the closure
`lambda: tune.report(**report_dict)` and `checkpoint` captures
`lambda: self._create_checkpoint(checkpoint_dict, global_step, filename)`. -/
inductive RelayAction where
  | report (report_dict : List (String × Int))
  | checkpoint (checkpoint_dict : Nat) (global_step : Nat) (filename : String)
deriving DecidableEq

/-- Modelled from the spec: `ray_lightning/session.py` is not under src/.
Per spec section 3, a Session is the process-local pair of the worker rank
and an optional reference to the relay queue; here the queue reference is
represented by the list of actions currently enqueued. -/
structure Session where
  rank : Nat
  queue : Option (List RelayAction)
deriving DecidableEq

/-- Modelled from the spec: `init_session` from `ray_lightning/session.py`
is not under src/.  It records the rank and the queue for this process. -/
def init_session (rank : Nat) (queue : List RelayAction) : Session :=
  { rank := rank, queue := some queue }

/-- Modelled from the spec: `get_actor_rank` from `ray_lightning/session.py`
is not under src/.  It reads the rank of the process session, if one is
active. -/
def get_actor_rank (s : Option Session) : Option Nat :=
  s.map Session.rank

/-- Modelled from the spec: `put_queue` from `ray_lightning/session.py` is
not under src/.  Per spec section 4.3 it enqueues a zero-argument action,
and is a no-op when no session or no queue is active. -/
def put_queue (s : Option Session) (a : RelayAction) : Option Session :=
  match s with
  | some sess =>
    match sess.queue with
    | some q => some { sess with queue := some (q ++ [a]) }
    | none => some sess
  | none => none

/-! ### src/ray_lightning/tune.py -/

/-- The GPU fraction 99/100 used by `get_tune_ddp_resources`. -/
def gpuFraction : ℚ := 99 / 100

/-- `get_tune_ddp_resources` from src/ray_lightning/tune.py.  The source
constructs the `resources` dictionary locally but contains no return
statement, so the Python function falls off the end and returns None. -/
def get_tune_ddp_resources (num_workers : Nat) (cpus_per_worker : Nat)
    (use_gpu : Bool) : Option (List (String × ℚ)) :=
  let resources : List (String × ℚ) :=
    [("cpu", 1), ("extra_cpu", ((num_workers * cpus_per_worker : Nat) : ℚ))]
  let resources : List (String × ℚ) :=
    if use_gpu then
      let total_worker_gpus : ℚ := (num_workers : ℚ) * gpuFraction
      resources ++ [("extra_gpu", total_worker_gpus),
                    ("gpu", (⌈total_worker_gpus⌉ : ℚ) - total_worker_gpus)]
    else resources
  none

/-- The `metrics` argument accepted by the reporting callback constructors:
None, a single string, a list of keys, or a rename mapping (a Python dict,
given as an association list in key-insertion order). -/
inductive MetricsArg where
  | noneArg
  | str (s : String)
  | list (l : List String)
  | dict (d : List (String × String))
deriving DecidableEq

/-- The metric selection as stored after `TuneReportCallback.__init__`,
which replaces a single string by the one-element list. -/
inductive MetricsSel where
  | noneSel
  | listSel (l : List String)
  | dictSel (d : List (String × String))
deriving DecidableEq

/-- Python truthiness of the stored selection: `not self._metrics` is true
for None, the empty list and the empty dict. -/
def MetricsSel.falsy : MetricsSel → Bool
  | .noneSel => true
  | .listSel l => l.isEmpty
  | .dictSel d => d.isEmpty

/-- The `on` argument of the callbacks (a string or a list of lifecycle
event names), stored unchanged by the base TuneCallback class. -/
inductive OnArg where
  | str (s : String)
  | list (l : List String)
deriving DecidableEq

/-- The `(key, metric)` pairs traversed by the report loop
`for key in self._metrics`: for a list, `metric = key`; for a dict,
`metric = self._metrics[key]`, i.e. the pairs of the dict itself. -/
def MetricsSel.reportPairs : MetricsSel → List (String × String)
  | .noneSel => []
  | .listSel l => l.map (fun k => (k, k))
  | .dictSel d => d

/-- Dictionary lookup in `trainer.callback_metrics`. -/
def lookupTensor (cm : List (String × Tensor)) (k : String) : Option Tensor :=
  (cm.find? (fun p => p.1 == k)).map Prod.snd

/-- Whether a report dictionary already holds the key. -/
def hasKey (d : List (String × Int)) (k : String) : Bool :=
  d.any (fun p => p.1 == k)

/-- Python dict assignment `report_dict[key] = v`: updates in place if the
key exists, otherwise appends in insertion order. -/
def dictInsert (d : List (String × Int)) (k : String) (v : Int) :
    List (String × Int) :=
  if hasKey d k then d.map (fun p => if p.1 == k then (k, v) else p)
  else d ++ [(k, v)]

/-- The loop of `_get_report_dict`:
`report_dict[key] = trainer.callback_metrics[metric].item()`, raising
KeyError (carrying the missing key) on an absent metric. -/
def buildReport (cm : List (String × Tensor)) :
    List (String × String) → List (String × Int) →
    Except String (List (String × Int))
  | [], report_dict => .ok report_dict
  | (key, metric) :: rest, report_dict =>
    match lookupTensor cm metric with
    | some t => buildReport cm rest (dictInsert report_dict key t.item)
    | none => .error metric

/-- `TuneReportCallback` after construction. -/
structure TuneReportCallback where
  metrics : MetricsSel
  «on» : OnArg
deriving DecidableEq

/-- `TuneReportCallback.__init__`: a single string is replaced by the
one-element list, everything else is stored unchanged. -/
def TuneReportCallback.init (metrics : MetricsArg) («on» : OnArg) :
    TuneReportCallback :=
  { metrics :=
      match metrics with
      | .noneArg => .noneSel
      | .str s => .listSel [s]
      | .list l => .listSel l
      | .dict d => .dictSel d,
    «on» := «on» }

/-- `TuneReportCallback._get_report_dict`: returns None (inner `Option`)
during the sanity-check phase, the full converted metrics mapping when the
selection is falsy, and otherwise runs the selection loop, which raises
KeyError (outer `Except`) on a missing metric. -/
def TuneReportCallback.getReportDict (c : TuneReportCallback)
    (trainer : Trainer) : Except String (Option (List (String × Int))) :=
  if trainer.running_sanity_check then .ok none
  else if c.metrics.falsy then
    .ok (some (trainer.callback_metrics.map (fun p => (p.1, p.2.item))))
  else
    (buildReport trainer.callback_metrics c.metrics.reportPairs []).map some

/-- Result of running a callback handler: the process session afterwards
and the exception it raised, if any.  When an exception is raised it
propagates before any later enqueue, so the session field holds the queue
state at the point of the raise. -/
structure HandleOut where
  session : Option Session
  error : Option String
deriving DecidableEq

/-- `TuneReportCallback._handle`: on rank 0 it computes the report dict and,
when that is not None, enqueues the relay action that forwards it to Tune;
on other ranks it does nothing. -/
def TuneReportCallback.handle (c : TuneReportCallback) (s : Option Session)
    (trainer : Trainer) : HandleOut :=
  if get_actor_rank s = some 0 then
    match c.getReportDict trainer with
    | .error e => { session := s, error := some e }
    | .ok none => { session := s, error := none }
    | .ok (some report_dict) =>
      { session := put_queue s (.report report_dict), error := none }
  else { session := s, error := none }

/-- `_TuneCheckpointCallback` after construction. -/
structure TuneCheckpointCallback where
  filename : String
  «on» : OnArg
deriving DecidableEq

/-- Result of running the checkpoint handler: `dumped` is the checkpoint
snapshot computed by `trainer.checkpoint_connector.dump_checkpoint()`
(None when the handler returned before computing it), and `session` is the
process session afterwards. -/
structure CkptHandleOut where
  dumped : Option Nat
  session : Option Session
deriving DecidableEq

/-- `_TuneCheckpointCallback._handle`: returns during the sanity-check
phase; otherwise computes the checkpoint snapshot and the global step on
every rank, and enqueues the file-writing action
(`_create_checkpoint(checkpoint_dict, global_step, self._filename)`) only
on rank 0. -/
def TuneCheckpointCallback.handle (c : TuneCheckpointCallback)
    (s : Option Session) (trainer : Trainer) : CkptHandleOut :=
  if trainer.running_sanity_check then { dumped := none, session := s }
  else
    let checkpoint_dict := trainer.checkpoint_connector.dump_checkpoint
    let global_step := trainer.global_step
    if get_actor_rank s = some 0 then
      { dumped := some checkpoint_dict,
        session :=
          put_queue s (.checkpoint checkpoint_dict global_step c.filename) }
    else { dumped := some checkpoint_dict, session := s }

/-- `TuneReportCheckpointCallback` after construction: it holds the two
sub-callbacks `_checkpoint` and `_report`. -/
structure TuneReportCheckpointCallback where
  checkpointCb : TuneCheckpointCallback
  reportCb : TuneReportCallback
deriving DecidableEq

/-- `TuneReportCheckpointCallback.__init__`: builds
`_TuneCheckpointCallback(filename, on)` and `TuneReportCallback(metrics,
on)`, both with the same trigger argument. -/
def TuneReportCheckpointCallback.init (metrics : MetricsArg)
    (filename : String) («on» : OnArg) : TuneReportCheckpointCallback :=
  { checkpointCb := { filename := filename, «on» := «on» },
    reportCb := TuneReportCallback.init metrics «on» }

/-- `TuneReportCheckpointCallback._handle`: runs the checkpoint handler and
then the report handler on the resulting session. -/
def TuneReportCheckpointCallback.handle (c : TuneReportCheckpointCallback)
    (s : Option Session) (trainer : Trainer) : HandleOut :=
  let r1 := c.checkpointCb.handle s trainer
  c.reportCb.handle r1.session trainer

/-! ### src/ray_lightning/ray_horovod.py -/

/-- Modelled from the spec: the `Queue` class from `ray_lightning/util.py`
is not under src/.  Per spec section 3 the RelayQueue is a FIFO of pending
actions; `num_cpus` is the driver-side CPU reservation taken from the
`actor_options` passed at construction. -/
structure Queue where
  num_cpus : Nat
  items : List RelayAction
deriving DecidableEq

/-- The result triple returned by the rank-0 worker from `train_remote`. -/
structure RunResult where
  results : Metrics
  state_dict : Nat
  best_model_path : Option String
deriving DecidableEq

/-- Modelled from the spec: `process_results` from `ray_lightning/util.py`
is not under src/.  Per spec section 4.1 it blocks until all dispatched
tasks complete while draining the relay queue concurrently, and yields the
collected worker results in dispatch order; the driver-side execution of
the drained actions has no bearing on the returned list. -/
def process_results (result_futures : List (Option RunResult))
    (_queue : Option Queue) : List (Option RunResult) :=
  result_futures

/-- The accelerator object as constructed by
`HorovodRayAccelerator.__init__` when Horovod is available. -/
structure HorovodRayAccelerator where
  nickname : String
  num_hosts : Nat
  num_slots : Nat
  use_gpu : Bool
deriving DecidableEq

/-- The exact error message raised by `HorovodRayAccelerator.__init__` when
Horovod is not importable (the Python source concatenates four adjacent
string literals). -/
def horovodInstallMessage : String :=
  "Horovod is not installed. Please intall it (https://horovod.readthedocs.io/en/stable/install_include.html) to use the HorovodRayAccelerator."

/-- `HorovodRayAccelerator.__init__`: raises RuntimeError with the install
message when `HOROVOD_AVAILABLE` is false, and otherwise constructs the
accelerator with nickname horovod_ray and the given sizing arguments. -/
def HorovodRayAccelerator.init (HOROVOD_AVAILABLE : Bool)
    (num_hosts num_slots : Nat) (use_gpu : Bool) :
    Except String HorovodRayAccelerator :=
  if !HOROVOD_AVAILABLE then
    .error horovodInstallMessage
  else
    .ok { nickname := "horovod_ray", num_hosts := num_hosts,
          num_slots := num_slots, use_gpu := use_gpu }

/-- `HorovodRayAccelerator.train_remote`, executed once per worker.  The
framework half (`super().setup` and `super().train`) is the parameter
`fit`, which runs the training loop on the fetched trainer and returns the
trained trainer together with the metrics object; `rank` and `local_rank`
are this process ranks assigned by Horovod.  Workers of nonzero rank
return None; the rank-0 worker returns the result triple, whose best
checkpoint path is None exactly when the trained trainer has no checkpoint
callback.  (The `init_session` call is a worker-process-local effect,
establishing the session read by the reporting callbacks during `fit`.) -/
def HorovodRayAccelerator.train_remote (fit : Trainer → Trainer × Metrics)
    (rank local_rank : Nat) (trainer_ref : Trainer) (_queue : Option Queue) :
    Option RunResult :=
  let trainer := trainer_ref
  let trainer :=
    if trainer.on_gpu then { trainer with root_gpu := local_rank }
    else trainer
  let fitOut := fit trainer
  let trainer := fitOut.1
  let results := fitOut.2
  if rank ≠ 0 then none
  else
    let best_model_path : Option String :=
      match trainer.checkpoint_callback with
      | some cb => cb.best_model_path
      | none => none
    some { results := results, state_dict := trainer.model.state_dict,
           best_model_path := best_model_path }

/-- The queue created by `HorovodRayAccelerator.train`: a fresh relay queue
with `actor_options={"num_cpus": 0}` when Tune is installed and a tuning
session is enabled, and None otherwise. -/
def train_queue (TUNE_INSTALLED is_session_enabled : Bool) : Option Queue :=
  if TUNE_INSTALLED && is_session_enabled then
    some { num_cpus := 0, items := [] }
  else none

/-- `CustomRayExecutor.run_async`: dispatches the same function arguments
(the trainer object reference and the queue) to every worker in the group;
the list element at position i is what worker i receives. -/
def run_async (args : Trainer × Option Queue) (num_workers : Nat) :
    List (Trainer × Option Queue) :=
  (List.range num_workers).map (fun _ => args)

/-- `HorovodRayAccelerator.train`, the driver-side half: puts the trainer
in the object store, creates the queue, dispatches `train_remote` to all
workers (worker i receives Horovod rank i), processes the results, takes
the first result, loads the returned state dict into the local model,
updates the checkpoint callback best path when one is configured, and
returns the metrics.  Returns None when the first collected result cannot
be destructured (an empty worker group or a None first result, an error in
Python). -/
def HorovodRayAccelerator.train (fit : Trainer → Trainer × Metrics)
    (TUNE_INSTALLED is_session_enabled : Bool) (num_workers : Nat)
    (trainer : Trainer) : Option (Metrics × Trainer) :=
  let trainer_ref := trainer
  let queue := train_queue TUNE_INSTALLED is_session_enabled
  let result_futures :=
    (run_async (trainer_ref, queue) num_workers).enum.map
      (fun p => HorovodRayAccelerator.train_remote fit p.1 p.1 p.2.1 p.2.2)
  let results := process_results result_futures queue
  match results.head? with
  | some (some r) =>
    let trainer := { trainer with
      model := trainer.model.load_state_dict r.state_dict }
    let trainer :=
      if trainer.checkpoint_callback.isSome then
        { trainer with
          checkpoint_callback := trainer.checkpoint_callback.map
            (fun cb => { cb with best_model_path := r.best_model_path }) }
      else trainer
    some (r.results, trainer)
  | _ => none

/-! ### Substring containment, used to state facts about error text -/

/-- Whether the first character list is an initial segment of the second. -/
def listStartsWith : List Char → List Char → Bool
  | [], _ => true
  | _ :: _, [] => false
  | a :: as, b :: bs => a == b && listStartsWith as bs

/-- Whether the first character list occurs contiguously in the second. -/
def listHasSub (pat : List Char) : List Char → Bool
  | [] => listStartsWith pat []
  | b :: bs => listStartsWith pat (b :: bs) || listHasSub pat bs

/-- Whether `pat` occurs as a contiguous substring of `s`. -/
def strContainsSub (s pat : String) : Bool :=
  listHasSub pat.data s.data

/-! ### Concrete instances used to instantiate the theorems -/

/-- A concrete trainer outside the sanity-check phase, with two callback
metrics, a configured checkpoint callback, checkpoint data 11 and global
step 4. -/
def trainerEx : Trainer :=
  { model := ⟨3⟩, checkpoint_callback := some ⟨some "best.ckpt"⟩,
    on_gpu := false, root_gpu := 0, running_sanity_check := false,
    callback_metrics := [("a", ⟨5⟩), ("b", ⟨7⟩)],
    checkpoint_connector := ⟨11⟩, global_step := 4 }

/-- The concrete trainer during its sanity-check phase. -/
def trainerSanityEx : Trainer :=
  { trainerEx with running_sanity_check := true }

/-- A concrete training-loop stand-in: leaves the trainer unchanged and
returns metrics 0. -/
def fitEx : Trainer → Trainer × Metrics := fun t => (t, 0)

/-! ### C4 -/

/-- C4: for every num_workers ≥ 1, cpus_per_worker ≥ 1 and use_gpu flag,
`get_tune_ddp_resources` returns None: the source constructs the resources
mapping locally but has no return statement. -/
theorem get_tune_ddp_resources_returns_none (num_workers cpus_per_worker : Nat)
    (use_gpu : Bool) (h1 : 1 ≤ num_workers) (h2 : 1 ≤ cpus_per_worker) :
    get_tune_ddp_resources num_workers cpus_per_worker use_gpu = none := rfl

/-- Witness for C4 at num_workers = 2, cpus_per_worker = 1, use_gpu = true. -/
theorem get_tune_ddp_resources_returns_none_witness :
    1 ≤ 2 ∧ 1 ≤ 1 ∧ get_tune_ddp_resources 2 1 true = none :=
  ⟨by decide, by decide,
    get_tune_ddp_resources_returns_none 2 1 true (by decide) (by decide)⟩

/-! ### C6 -/

/-- C6: when Horovod is not importable, constructing a
HorovodRayAccelerator fails immediately with an error (no accelerator is
produced), and the error message names Horovod and points at the Horovod
installation documentation as the remedy. -/
theorem horovod_unavailable_init_raises (num_hosts num_slots : Nat)
    (use_gpu : Bool) :
    HorovodRayAccelerator.init false num_hosts num_slots use_gpu
      = .error horovodInstallMessage
    ∧ strContainsSub horovodInstallMessage "Horovod" = true
    ∧ strContainsSub horovodInstallMessage
        "https://horovod.readthedocs.io/en/stable/install_include.html"
      = true :=
  ⟨rfl, by decide, by decide⟩

/-! ### C7 -/

/-- C7: during the sanity-check phase, a firing of the metric reporter,
the checkpoint reporter or the combined reporter leaves the session (and
hence the relay queue) unchanged on every rank, raises nothing, and the
checkpoint reporter computes no snapshot. -/
theorem sanity_check_enqueues_nothing (rc : TuneReportCallback)
    (cc : TuneCheckpointCallback) (rcc : TuneReportCheckpointCallback)
    (s : Option Session) (trainer : Trainer)
    (h : trainer.running_sanity_check = true) :
    rc.handle s trainer = { session := s, error := none }
    ∧ cc.handle s trainer = { dumped := none, session := s }
    ∧ rcc.handle s trainer = { session := s, error := none } := by
  have h1 : ∀ (c : TuneReportCallback),
      c.handle s trainer = { session := s, error := none } := by
    intro c
    unfold TuneReportCallback.handle TuneReportCallback.getReportDict
    rw [h]
    split <;> rfl
  have h2 : ∀ (c : TuneCheckpointCallback),
      c.handle s trainer = { dumped := none, session := s } := by
    intro c
    unfold TuneCheckpointCallback.handle
    rw [h]
    rfl
  refine ⟨h1 rc, h2 cc, ?_⟩
  unfold TuneReportCheckpointCallback.handle
  rw [h2 rcc.checkpointCb, h1 rcc.reportCb]

/-- Witness for C7 at a concrete rank-1 session with an empty queue and a
trainer in the sanity-check phase. -/
theorem sanity_check_enqueues_nothing_witness :
    trainerSanityEx.running_sanity_check = true
    ∧ ((TuneReportCallback.init .noneArg (.str "validation_end")).handle
          (some { rank := 1, queue := some [] }) trainerSanityEx
        = { session := some { rank := 1, queue := some [] }, error := none }
      ∧ (TuneCheckpointCallback.mk "checkpoint" (.str "validation_end")).handle
          (some { rank := 1, queue := some [] }) trainerSanityEx
        = { dumped := none, session := some { rank := 1, queue := some [] } }
      ∧ (TuneReportCheckpointCallback.init .noneArg "checkpoint"
            (.str "validation_end")).handle
          (some { rank := 1, queue := some [] }) trainerSanityEx
        = { session := some { rank := 1, queue := some [] }, error := none }) :=
  ⟨rfl, sanity_check_enqueues_nothing _ _ _ _ _ rfl⟩

/-! ### C8 -/

/-- C8: outside the sanity-check phase the checkpoint reporter computes the
full checkpoint snapshot on every rank, and enqueues the checkpoint-writing
action on the relay queue exactly when the current rank is 0, leaving the
session unchanged on every other rank. -/
theorem checkpoint_handle_dumps_enqueues_rank0 (cc : TuneCheckpointCallback)
    (s : Option Session) (trainer : Trainer)
    (h : trainer.running_sanity_check = false) :
    (cc.handle s trainer).dumped
      = some trainer.checkpoint_connector.dump_checkpoint
    ∧ (get_actor_rank s = some 0 →
        (cc.handle s trainer).session = put_queue s
          (.checkpoint trainer.checkpoint_connector.dump_checkpoint
            trainer.global_step cc.filename))
    ∧ (get_actor_rank s ≠ some 0 → (cc.handle s trainer).session = s) := by
  unfold TuneCheckpointCallback.handle
  rw [h]
  by_cases hr : get_actor_rank s = some 0 <;> simp [hr]

/-- Witness for C8 on rank 0 with an empty queue, together with the
non-enqueuing conclusion transported to a rank-1 session. -/
theorem checkpoint_handle_dumps_enqueues_rank0_witness :
    trainerEx.running_sanity_check = false
    ∧ (((TuneCheckpointCallback.mk "checkpoint" (.str "validation_end")).handle
          (some { rank := 0, queue := some [] }) trainerEx).dumped
        = some trainerEx.checkpoint_connector.dump_checkpoint
      ∧ (get_actor_rank (some { rank := 0, queue := some [] }) = some 0 →
          ((TuneCheckpointCallback.mk "checkpoint" (.str "validation_end")).handle
              (some { rank := 0, queue := some [] }) trainerEx).session
            = put_queue (some { rank := 0, queue := some [] })
                (.checkpoint trainerEx.checkpoint_connector.dump_checkpoint
                  trainerEx.global_step
                  (TuneCheckpointCallback.mk "checkpoint"
                    (.str "validation_end")).filename))
      ∧ (get_actor_rank (some { rank := 0, queue := some [] }) ≠ some 0 →
          ((TuneCheckpointCallback.mk "checkpoint" (.str "validation_end")).handle
              (some { rank := 0, queue := some [] }) trainerEx).session
            = some { rank := 0, queue := some [] })) :=
  ⟨rfl, checkpoint_handle_dumps_enqueues_rank0 _ _ _ rfl⟩

/-! ### C5 -/

/-- The report loop raises as soon as some requested metric is absent from
the callback metrics, whatever has been accumulated so far. -/
theorem buildReport_error_of_missing (cm : List (String × Tensor))
    (pairs : List (String × String)) :
    ∀ (acc : List (String × Int)),
    (∃ p ∈ pairs, lookupTensor cm p.2 = none) →
    ∃ e, buildReport cm pairs acc = .error e := by
  induction pairs with
  | nil => intro acc h; simp at h
  | cons p rest ih =>
    intro acc h
    obtain ⟨p0, hp0, hnone⟩ := h
    obtain ⟨key, metric⟩ := p
    rcases List.mem_cons.mp hp0 with h0 | h0
    · rcases hfind : lookupTensor cm metric with _ | t
      · exact ⟨metric, by rw [buildReport, hfind]⟩
      · rw [h0] at hnone
        simp only [hnone] at hfind
        exact absurd hfind (by simp)
    · rcases hfind : lookupTensor cm metric with _ | t
      · exact ⟨metric, by rw [buildReport, hfind]⟩
      · obtain ⟨e, he⟩ := ih (dictInsert acc key t.item) ⟨p0, h0, hnone⟩
        exact ⟨e, by rw [buildReport, hfind]; exact he⟩

/-- A selection with a nonempty report loop is not Python-falsy. -/
theorem not_falsy_of_reportPairs_ne_nil (sel : MetricsSel)
    (h : sel.reportPairs ≠ []) : sel.falsy = false := by
  cases sel with
  | noneSel => simp [MetricsSel.reportPairs] at h
  | listSel l =>
    cases l with
    | nil => simp [MetricsSel.reportPairs] at h
    | cons a l => rfl
  | dictSel d =>
    cases d with
    | nil => simp [MetricsSel.reportPairs] at h
    | cons a d => rfl

/-- C5: when some metric requested by a list or dict selection is absent
from the callback metrics at a firing outside the sanity-check phase, the
reporter raises a KeyError at that firing: `_get_report_dict` returns no
dictionary (so nothing is silently skipped), and on the rank-0 worker the
exception propagates out of `_handle` with the relay queue unchanged, so
no partial report action is enqueued. -/
theorem missing_metric_key_raises (c : TuneReportCallback) (trainer : Trainer)
    (q : List RelayAction)
    (h : trainer.running_sanity_check = false)
    (hmiss : ∃ p ∈ c.metrics.reportPairs,
        lookupTensor trainer.callback_metrics p.2 = none) :
    ∃ e, c.getReportDict trainer = .error e
    ∧ c.handle (some { rank := 0, queue := some q }) trainer
      = { session := some { rank := 0, queue := some q }, error := some e } := by
  have hne : c.metrics.reportPairs ≠ [] := by
    rintro hnil
    rw [hnil] at hmiss
    simp at hmiss
  obtain ⟨e, he⟩ :=
    buildReport_error_of_missing trainer.callback_metrics
      c.metrics.reportPairs [] hmiss
  have hget : c.getReportDict trainer = .error e := by
    unfold TuneReportCallback.getReportDict
    rw [h, not_falsy_of_reportPairs_ne_nil c.metrics hne]
    simp [he, Except.map]
  refine ⟨e, hget, ?_⟩
  unfold TuneReportCallback.handle
  rw [hget]
  simp [get_actor_rank]

/-- Witness for C5: a list selection asking for the absent key c on the
concrete trainer whose metrics hold only keys a and b. -/
theorem missing_metric_key_raises_witness :
    trainerEx.running_sanity_check = false
    ∧ (∃ p ∈ (TuneReportCallback.init (.list ["c"])
          (.str "validation_end")).metrics.reportPairs,
        lookupTensor trainerEx.callback_metrics p.2 = none)
    ∧ ∃ e, (TuneReportCallback.init (.list ["c"])
          (.str "validation_end")).getReportDict trainerEx = .error e
      ∧ (TuneReportCallback.init (.list ["c"]) (.str "validation_end")).handle
          (some { rank := 0, queue := some [] }) trainerEx
        = { session := some { rank := 0, queue := some [] },
            error := some e } :=
  ⟨rfl, ⟨("c", "c"), by simp [TuneReportCallback.init,
      MetricsSel.reportPairs, lookupTensor, trainerEx]⟩,
    missing_metric_key_raises _ _ _ rfl
      ⟨("c", "c"), by simp [TuneReportCallback.init,
        MetricsSel.reportPairs, lookupTensor, trainerEx]⟩⟩

/-! ### C9 -/

/-- C9: the combined reporter passes the same trigger argument to both
sub-callbacks, and on a rank-0 firing outside the sanity-check phase whose
report dictionary computes successfully, it enqueues the checkpoint-write
action immediately followed by the associated report action, in that
order, on the relay queue. -/
theorem combined_handle_checkpoint_before_report (metrics : MetricsArg)
    (filename : String) («on» : OnArg) :
    (TuneReportCheckpointCallback.init metrics filename «on»).checkpointCb.«on»
      = «on»
    ∧ (TuneReportCheckpointCallback.init metrics filename «on»).reportCb.«on»
      = «on»
    ∧ ∀ (trainer : Trainer) (q : List RelayAction) (rd : List (String × Int)),
        trainer.running_sanity_check = false →
        (TuneReportCallback.init metrics «on»).getReportDict trainer
          = .ok (some rd) →
        (TuneReportCheckpointCallback.init metrics filename «on»).handle
            (some { rank := 0, queue := some q }) trainer
          = { session := some { rank := 0, queue := some (q ++
                [.checkpoint trainer.checkpoint_connector.dump_checkpoint
                    trainer.global_step filename,
                  .report rd]) },
              error := none } := by
  refine ⟨rfl, rfl, ?_⟩
  intro trainer q rd h hok
  unfold TuneReportCheckpointCallback.handle
  have hc : (TuneReportCheckpointCallback.init metrics filename
      «on»).checkpointCb.handle (some { rank := 0, queue := some q }) trainer
      = { dumped := some trainer.checkpoint_connector.dump_checkpoint,
          session := some { rank := 0, queue := some (q ++
            [.checkpoint trainer.checkpoint_connector.dump_checkpoint
              trainer.global_step filename]) } } := by
    unfold TuneCheckpointCallback.handle
    rw [h]
    simp [get_actor_rank, put_queue, TuneReportCheckpointCallback.init]
  rw [hc]
  unfold TuneReportCallback.handle
  have hrep : (TuneReportCheckpointCallback.init metrics filename
      «on»).reportCb.getReportDict trainer = .ok (some rd) := hok
  rw [hrep]
  simp [get_actor_rank, put_queue]

/-- Witness for C9: the combined reporter built from the selection list
with the single key a, fired on rank 0 with an empty queue on the concrete
trainer. -/
theorem combined_handle_checkpoint_before_report_witness :
    trainerEx.running_sanity_check = false
    ∧ (TuneReportCallback.init (.list ["a"])
        (.str "validation_end")).getReportDict trainerEx = .ok (some [("a", 5)])
    ∧ (TuneReportCheckpointCallback.init (.list ["a"]) "checkpoint"
          (.str "validation_end")).handle
        (some { rank := 0, queue := some [] }) trainerEx
      = { session := some ⟨0, some [.checkpoint 11 4 "checkpoint",
                                    .report [("a", 5)]]⟩,
          error := none } :=
  ⟨rfl, by rfl,
    (combined_handle_checkpoint_before_report (.list ["a"]) "checkpoint"
        (.str "validation_end")).2.2 trainerEx [] [("a", 5)] rfl (by rfl)⟩

/-! ### C3 -/

/-- Every pair of a Python-style dict assignment is the newly assigned
pair or an original pair. -/
theorem mem_dictInsert {d : List (String × Int)} {k' : String} {v' : Int}
    {k : String} {v : Int} (h : (k, v) ∈ dictInsert d k' v') :
    (k = k' ∧ v = v') ∨ (k, v) ∈ d := by
  unfold dictInsert at h
  split at h
  · obtain ⟨p, hp, hfp⟩ := List.mem_map.mp h
    by_cases hk : p.1 == k'
    · rw [if_pos hk] at hfp
      have h2 : k' = k ∧ v' = v := by
        constructor <;> injection hfp
      exact Or.inl ⟨h2.1.symm, h2.2.symm⟩
    · rw [if_neg hk] at hfp
      exact Or.inr (hfp ▸ hp)
  · rcases List.mem_append.mp h with h | h
    · exact Or.inr h
    · simp only [List.mem_singleton] at h
      have h2 : k = k' ∧ v = v' := by
        constructor <;> injection h
      exact Or.inl h2

/-- The keys of a Python-style dict assignment are the assigned key plus
the original keys. -/
theorem hasKey_dictInsert {d : List (String × Int)} {k k' : String}
    {v' : Int} :
    hasKey (dictInsert d k' v') k = true ↔ k = k' ∨ hasKey d k = true := by
  unfold dictInsert hasKey
  split
  case isTrue hK =>
    simp only [List.any_eq_true, List.mem_map]
    constructor
    · rintro ⟨q, ⟨p, hp, rfl⟩, hq⟩
      by_cases hk : p.1 == k'
      · rw [if_pos hk] at hq
        simp only [beq_iff_eq] at hq
        exact Or.inl hq.symm
      · rw [if_neg hk] at hq
        exact Or.inr ⟨p, hp, hq⟩
    · rintro (rfl | hK2)
      · obtain ⟨p, hp, hpk⟩ := List.any_eq_true.mp hK
        exact ⟨(k, v'), ⟨p, hp, by rw [if_pos hpk]⟩, by simp⟩
      · obtain ⟨p, hp, hpk⟩ := hK2
        by_cases hk : p.1 == k'
        · have hkk : k = k' := by
            simp only [beq_iff_eq] at hpk hk
            rw [← hpk, hk]
          exact ⟨(k', v'), ⟨p, hp, by rw [if_pos hk]⟩, by simp [hkk]⟩
        · exact ⟨p, ⟨p, hp, by rw [if_neg hk]⟩, hpk⟩
  case isFalse hK =>
    simp only [hasKey, List.any_append, List.any_cons, List.any_nil,
      Bool.or_eq_true, Bool.or_false, beq_iff_eq, List.any_eq_true]
    constructor
    · rintro (h | h)
      · exact Or.inr h
      · exact Or.inl h.symm
    · rintro (rfl | h)
      · exact Or.inr rfl
      · exact Or.inl h

/-- When every requested metric is present, the report loop succeeds, the
produced keys are the accumulator keys plus the requested keys, and every
produced entry carries either an accumulator value or the scalar of the
callback metric it was requested from. -/
theorem buildReport_ok_of_found (cm : List (String × Tensor))
    (pairs : List (String × String)) :
    ∀ (acc : List (String × Int)),
    (∀ p ∈ pairs, (lookupTensor cm p.2).isSome = true) →
    ∃ r, buildReport cm pairs acc = .ok r
    ∧ (∀ k, hasKey r k = true ↔
        (hasKey acc k = true ∨ ∃ m, (k, m) ∈ pairs))
    ∧ (∀ k v, (k, v) ∈ r → (k, v) ∈ acc ∨
        ∃ m t, (k, m) ∈ pairs ∧ lookupTensor cm m = some t ∧ v = t.item) := by
  induction pairs with
  | nil =>
    intro acc _
    exact ⟨acc, rfl, fun k => by simp, fun k v h => Or.inl h⟩
  | cons p rest ih =>
    intro acc hall
    obtain ⟨key, metric⟩ := p
    have hsome : (lookupTensor cm metric).isSome = true :=
      hall (key, metric) (List.mem_cons_self _ _)
    obtain ⟨t, ht⟩ := Option.isSome_iff_exists.mp hsome
    obtain ⟨r, hr, hkeys, hvals⟩ := ih (dictInsert acc key t.item)
      (fun q hq => hall q (List.mem_cons_of_mem _ hq))
    refine ⟨r, ?_, ?_, ?_⟩
    · rw [buildReport, ht]
      exact hr
    · intro k
      rw [hkeys k]
      constructor
      · rintro (hk | ⟨m, hm⟩)
        · rcases hasKey_dictInsert.mp hk with rfl | hk2
          · exact Or.inr ⟨metric, by simp⟩
          · exact Or.inl hk2
        · exact Or.inr ⟨m, List.mem_cons_of_mem _ hm⟩
      · rintro (hk | ⟨m, hm⟩)
        · exact Or.inl (hasKey_dictInsert.mpr (Or.inr hk))
        · rcases List.mem_cons.mp hm with heq | hm2
          · have hkey : k = key := by injection heq
            exact Or.inl (hasKey_dictInsert.mpr (Or.inl hkey))
          · exact Or.inr ⟨m, hm2⟩
    · intro k v hkv
      rcases hvals k v hkv with hacc | ⟨m, t2, hm, hlt, hv⟩
      · rcases mem_dictInsert hacc with ⟨rfl, rfl⟩ | hacc2
        · exact Or.inr ⟨metric, t, by simp, ht, rfl⟩
        · exact Or.inl hacc2
      · exact Or.inr ⟨m, t2, List.mem_cons_of_mem _ hm, hlt, hv⟩

/-- C3 counterexample: with the empty-list selection, a firing outside the
sanity-check phase reports the full metrics mapping rather than exactly
the (zero) listed keys: key a is reported although it is not in the
selection list. -/
theorem report_empty_list_selection_counterexample :
    (TuneReportCallback.init (.list []) (.str "validation_end")).getReportDict
        trainerEx = .ok (some [("a", 5), ("b", 7)])
    ∧ ¬ ("a" ∈ ([] : List String)) :=
  ⟨by rfl, by simp⟩

/-- C3 (amended): outside the sanity-check phase, with no metric selection
the reporter reports every key of the callback metrics with values
converted to scalars, and an empty list or empty dict selection behaves
the same way; a single string stores the same state as its one-element
list; a nonempty list selection reports exactly the listed keys under the
same names with the scalars of those metrics; a nonempty dict selection
reports exactly the dict keys, each valued by the scalar of the callback
metric named by a corresponding dict value; and on the rank-0 worker the
computed dictionary is enqueued as a relay report action. -/
theorem report_callback_selection («on» : OnArg) (trainer : Trainer)
    (h : trainer.running_sanity_check = false) :
    (TuneReportCallback.init .noneArg «on»).getReportDict trainer
      = .ok (some (trainer.callback_metrics.map (fun p => (p.1, p.2.item))))
    ∧ (∀ s, TuneReportCallback.init (.str s) «on»
        = TuneReportCallback.init (.list [s]) «on»)
    ∧ (TuneReportCallback.init (.list []) «on»).getReportDict trainer
      = .ok (some (trainer.callback_metrics.map (fun p => (p.1, p.2.item))))
    ∧ (TuneReportCallback.init (.dict []) «on»).getReportDict trainer
      = .ok (some (trainer.callback_metrics.map (fun p => (p.1, p.2.item))))
    ∧ (∀ l, l ≠ [] →
        (∀ k ∈ l, (lookupTensor trainer.callback_metrics k).isSome = true) →
        ∃ r, (TuneReportCallback.init (.list l) «on»).getReportDict trainer
            = .ok (some r)
        ∧ (∀ k, hasKey r k = true ↔ k ∈ l)
        ∧ (∀ k v, (k, v) ∈ r → ∃ t,
            lookupTensor trainer.callback_metrics k = some t ∧ v = t.item))
    ∧ (∀ d, d ≠ [] →
        (∀ p ∈ d, (lookupTensor trainer.callback_metrics p.2).isSome = true) →
        ∃ r, (TuneReportCallback.init (.dict d) «on»).getReportDict trainer
            = .ok (some r)
        ∧ (∀ k, hasKey r k = true ↔ ∃ m, (k, m) ∈ d)
        ∧ (∀ k v, (k, v) ∈ r → ∃ m t, (k, m) ∈ d
            ∧ lookupTensor trainer.callback_metrics m = some t ∧ v = t.item))
    ∧ (∀ (c : TuneReportCallback) (q : List RelayAction) rd,
        c.getReportDict trainer = .ok (some rd) →
        c.handle (some { rank := 0, queue := some q }) trainer
          = { session := some { rank := 0, queue := some (q ++ [.report rd]) },
              error := none }) := by
  refine ⟨?_, fun s => rfl, ?_, ?_, ?_, ?_, ?_⟩
  · unfold TuneReportCallback.getReportDict
    rw [h]
    rfl
  · unfold TuneReportCallback.getReportDict
    rw [h]
    rfl
  · unfold TuneReportCallback.getReportDict
    rw [h]
    rfl
  · intro l hl hall
    have hfalsy : (TuneReportCallback.init (.list l) «on»).metrics.falsy
        = false := by
      cases l with
      | nil => exact absurd rfl hl
      | cons a l => rfl
    obtain ⟨r, hr, hkeys, hvals⟩ :=
      buildReport_ok_of_found trainer.callback_metrics
        ((TuneReportCallback.init (.list l) «on»).metrics.reportPairs) []
        (by
          intro p hp
          simp only [TuneReportCallback.init, MetricsSel.reportPairs,
            List.mem_map] at hp
          obtain ⟨k, hk, rfl⟩ := hp
          exact hall k hk)
    have hrp : (TuneReportCallback.init (.list l) «on»).metrics.reportPairs
        = l.map (fun k => (k, k)) := rfl
    rw [hrp] at hkeys hvals
    refine ⟨r, ?_, ?_, ?_⟩
    · unfold TuneReportCallback.getReportDict
      rw [h, hfalsy, hr]
      rfl
    · intro k
      rw [hkeys k]
      simp [hasKey, List.mem_map]
    · intro k v hkv
      rcases hvals k v hkv with hacc | ⟨m, t, hm, hlt, hv⟩
      · simp at hacc
      · simp only [List.mem_map] at hm
        obtain ⟨k2, _, heq⟩ := hm
        have hk2 : k2 = k := by injection heq
        have hm2 : k2 = m := by injection heq
        exact ⟨t, by rw [← hk2, hm2]; exact hlt, hv⟩
  · intro d hd hall
    have hfalsy : (TuneReportCallback.init (.dict d) «on»).metrics.falsy
        = false := by
      cases d with
      | nil => exact absurd rfl hd
      | cons a d => rfl
    have hrp : (TuneReportCallback.init (.dict d) «on»).metrics.reportPairs
        = d := rfl
    obtain ⟨r, hr, hkeys, hvals⟩ :=
      buildReport_ok_of_found trainer.callback_metrics
        ((TuneReportCallback.init (.dict d) «on»).metrics.reportPairs) []
        (by
          intro p hp
          rw [hrp] at hp
          exact hall p hp)
    rw [hrp] at hkeys hvals
    refine ⟨r, ?_, ?_, ?_⟩
    · unfold TuneReportCallback.getReportDict
      rw [h, hfalsy, hr]
      rfl
    · intro k
      rw [hkeys k]
      simp [hasKey]
    · intro k v hkv
      rcases hvals k v hkv with hacc | ⟨m, t, hm, hlt, hv⟩
      · simp at hacc
      · exact ⟨m, t, hm, hlt, hv⟩
  · intro c q rd hok
    unfold TuneReportCallback.handle
    rw [hok]
    simp [get_actor_rank, put_queue]

/-- Witness for C3 on the concrete two-metric trainer. -/
theorem report_callback_selection_witness :
    trainerEx.running_sanity_check = false
    ∧ (TuneReportCallback.init .noneArg
          (.str "validation_end")).getReportDict trainerEx
        = .ok (some (trainerEx.callback_metrics.map
            (fun p => (p.1, p.2.item))))
    ∧ (∀ l, l ≠ [] →
        (∀ k ∈ l, (lookupTensor trainerEx.callback_metrics k).isSome = true) →
        ∃ r, (TuneReportCallback.init (.list l)
              (.str "validation_end")).getReportDict trainerEx = .ok (some r)
        ∧ (∀ k, hasKey r k = true ↔ k ∈ l)
        ∧ (∀ k v, (k, v) ∈ r → ∃ t,
            lookupTensor trainerEx.callback_metrics k = some t
            ∧ v = t.item)) :=
  ⟨rfl,
    (report_callback_selection (.str "validation_end") trainerEx rfl).1,
    (report_callback_selection (.str "validation_end") trainerEx rfl).2.2.2.2.1⟩

/-! ### C1 -/

/-- A worker of nonzero rank returns None from train_remote. -/
theorem train_remote_none_of_rank_ne_zero (fit : Trainer → Trainer × Metrics)
    (r lr : Nat) (t : Trainer) (q : Option Queue) (hr : r ≠ 0) :
    HorovodRayAccelerator.train_remote fit r lr t q = none := by
  unfold HorovodRayAccelerator.train_remote
  simp [hr]

/-- The rank-0 worker always returns a result from train_remote. -/
theorem train_remote_zero_isSome (fit : Trainer → Trainer × Metrics)
    (lr : Nat) (t : Trainer) (q : Option Queue) :
    (HorovodRayAccelerator.train_remote fit 0 lr t q).isSome = true := by
  unfold HorovodRayAccelerator.train_remote
  simp

/-- Exactly one of the worker results is non-null, for every worker count. -/
theorem countP_isSome_train_remote (fit : Trainer → Trainer × Metrics)
    (trainer : Trainer) (queue : Option Queue) :
    ∀ N : Nat, ((List.range N).map (fun r =>
        HorovodRayAccelerator.train_remote fit r r trainer queue)).countP
      (fun o => o.isSome) = if N = 0 then 0 else 1 := by
  intro N
  induction N with
  | zero => rfl
  | succ n ih =>
    rw [List.range_succ, List.map_append, List.countP_append, ih]
    rcases Nat.eq_zero_or_pos n with rfl | hn
    · simp [train_remote_zero_isSome]
    · have hne : n ≠ 0 := Nat.pos_iff_ne_zero.mp hn
      simp [hne, train_remote_none_of_rank_ne_zero fit n n trainer queue hne]

/-- C1: after a successful run with N ≥ 1 workers (worker i holding
communication rank i), exactly one of the N values returned by
train_remote is non-null; every nonzero-rank worker returns None, and the
rank-0 worker returns a result triple whose best checkpoint path is None
when the trainer has no checkpoint callback configured (assuming the
framework training loop preserves the configured checkpoint callback). -/
theorem train_remote_exactly_one_result (fit : Trainer → Trainer × Metrics)
    (N : Nat) (hN : 1 ≤ N) (trainer : Trainer) (queue : Option Queue)
    (hfit : ∀ t, (fit t).1.checkpoint_callback = t.checkpoint_callback) :
    ((List.range N).map (fun r =>
        HorovodRayAccelerator.train_remote fit r r trainer queue)).countP
      (fun o => o.isSome) = 1
    ∧ (∀ r, r ≠ 0 →
        HorovodRayAccelerator.train_remote fit r r trainer queue = none)
    ∧ (∃ res, HorovodRayAccelerator.train_remote fit 0 0 trainer queue
          = some res
        ∧ (trainer.checkpoint_callback = none →
            res.best_model_path = none)) := by
  refine ⟨?_, fun r hr => train_remote_none_of_rank_ne_zero fit r r trainer
    queue hr, ?_⟩
  · rw [countP_isSome_train_remote fit trainer queue N,
      if_neg (Nat.pos_iff_ne_zero.mp hN)]
  · set t1 : Trainer :=
      if trainer.on_gpu then { trainer with root_gpu := 0 } else trainer
      with ht1
    have hres : HorovodRayAccelerator.train_remote fit 0 0 trainer queue
        = some (RunResult.mk (fit t1).2 (fit t1).1.model.state_dict
            (match (fit t1).1.checkpoint_callback with
              | some cb => cb.best_model_path
              | none => none)) := rfl
    refine ⟨_, hres, ?_⟩
    intro hcb
    have hcb2 : (fit t1).1.checkpoint_callback = none := by
      rw [hfit, ht1]
      cases hgpu : trainer.on_gpu <;> simp [hgpu, hcb]
    show (match (fit t1).1.checkpoint_callback with
      | some cb => cb.best_model_path
      | none => none) = none
    rw [hcb2]

/-- Witness for C1 with three workers, the identity training loop and the
concrete trainer. -/
theorem train_remote_exactly_one_result_witness :
    1 ≤ 3
    ∧ (((List.range 3).map (fun r =>
          HorovodRayAccelerator.train_remote fitEx r r trainerEx none)).countP
        (fun o => o.isSome) = 1
      ∧ (∀ r, r ≠ 0 →
          HorovodRayAccelerator.train_remote fitEx r r trainerEx none = none)
      ∧ (∃ res, HorovodRayAccelerator.train_remote fitEx 0 0 trainerEx none
            = some res
          ∧ (trainerEx.checkpoint_callback = none →
              res.best_model_path = none))) :=
  ⟨by decide,
    train_remote_exactly_one_result fitEx 3 (by decide) trainerEx none
      (fun t => rfl)⟩

/-! ### C2 and C10 -/

/-- run_async dispatches the same arguments to each of the workers. -/
theorem run_async_eq_replicate (a : Trainer × Option Queue) (n : Nat) :
    run_async a n = List.replicate n a := by
  induction n with
  | zero => rfl
  | succ n ih =>
    rw [run_async, List.range_succ_eq_map, List.map_cons, List.map_map,
      List.replicate_succ]
    exact congrArg (List.cons a) ih

/-- The first collected result is the value computed by the worker at
position 0, which receives rank 0. -/
theorem result_futures_head (fit : Trainer → Trainer × Metrics)
    (trainer : Trainer) (queue : Option Queue) (n : Nat) :
    ((run_async (trainer, queue) (n + 1)).enum.map
      (fun p => HorovodRayAccelerator.train_remote fit p.1 p.1 p.2.1
        p.2.2)).head?
    = some (HorovodRayAccelerator.train_remote fit 0 0 trainer queue) := by
  rw [run_async_eq_replicate, List.replicate_succ, List.enum_cons]
  rfl

/-- C2: for any worker count N ≥ 1, the driver-side train() takes the
result at the first position (the rank-0 result), loads the returned state
blob into its local model so that the post-run model weights equal exactly
the state returned by the rank-0 worker, sets the checkpoint callback best
path to the returned best path exactly when a checkpoint callback is
configured (leaving the absent callback absent otherwise), and returns the
metrics object of that result. -/
theorem train_driver_postprocessing (fit : Trainer → Trainer × Metrics)
    (TUNE_INSTALLED is_session_enabled : Bool) (N : Nat) (hN : 1 ≤ N)
    (trainer : Trainer) :
    ∃ res, HorovodRayAccelerator.train_remote fit 0 0 trainer
        (train_queue TUNE_INSTALLED is_session_enabled) = some res
    ∧ ∃ tr1, HorovodRayAccelerator.train fit TUNE_INSTALLED
          is_session_enabled N trainer = some (res.results, tr1)
      ∧ tr1.model.state_dict = res.state_dict
      ∧ (trainer.checkpoint_callback = none → tr1.checkpoint_callback = none)
      ∧ (∀ cb, trainer.checkpoint_callback = some cb →
          tr1.checkpoint_callback
            = some { cb with best_model_path := res.best_model_path }) := by
  obtain ⟨n, rfl⟩ : ∃ n, N = n + 1 :=
    ⟨N - 1, (Nat.succ_pred_eq_of_pos hN).symm⟩
  obtain ⟨res, hres⟩ := Option.isSome_iff_exists.mp
    (train_remote_zero_isSome fit 0 trainer
      (train_queue TUNE_INSTALLED is_session_enabled))
  refine ⟨res, hres, ?_⟩
  unfold HorovodRayAccelerator.train
  simp only [process_results, result_futures_head fit trainer
    (train_queue TUNE_INSTALLED is_session_enabled) n, hres]
  cases hcb : trainer.checkpoint_callback with
  | none =>
    simp only [hcb, Option.isSome_none, Bool.false_eq_true, if_false,
      Model.load_state_dict]
    refine ⟨_, rfl, rfl, fun _ => rfl, ?_⟩
    intro cb hcb2
    exact Option.noConfusion hcb2
  | some cb =>
    simp only [hcb, Option.isSome_some, if_true, Option.map_some,
      Model.load_state_dict]
    refine ⟨_, rfl, rfl, ?_, ?_⟩
    · intro h2
      exact Option.noConfusion h2
    · intro cb2 hcb2
      injection hcb2 with h3
      subst h3
      rfl

/-- Witness for C2 with two workers, Tune installed, an active session, the
identity training loop and the concrete trainer. -/
theorem train_driver_postprocessing_witness :
    1 ≤ 2
    ∧ ∃ res, HorovodRayAccelerator.train_remote fitEx 0 0 trainerEx
        (train_queue true true) = some res
    ∧ ∃ tr1, HorovodRayAccelerator.train fitEx true true 2 trainerEx
          = some (res.results, tr1)
      ∧ tr1.model.state_dict = res.state_dict
      ∧ (trainerEx.checkpoint_callback = none →
          tr1.checkpoint_callback = none)
      ∧ (∀ cb, trainerEx.checkpoint_callback = some cb →
          tr1.checkpoint_callback
            = some { cb with best_model_path := res.best_model_path }) :=
  ⟨by decide, train_driver_postprocessing fitEx true true 2 (by decide)
    trainerEx⟩

/-- C10: the driver creates the relay queue exactly when Tune is installed
and a tuning session is detected, with zero driver-side CPU reservation
and initially empty; the dispatch hands every one of the N workers the
identical pair of the trainer reference and that queue value (None when no
queue was created). -/
theorem train_queue_iff_and_same_dispatch
    (TUNE_INSTALLED is_session_enabled : Bool) (trainer_ref : Trainer)
    (num_workers : Nat) :
    (train_queue TUNE_INSTALLED is_session_enabled).isSome
      = (TUNE_INSTALLED && is_session_enabled)
    ∧ (∀ q, train_queue TUNE_INSTALLED is_session_enabled = some q →
        q.num_cpus = 0 ∧ q.items = [])
    ∧ (run_async (trainer_ref, train_queue TUNE_INSTALLED is_session_enabled)
        num_workers).length = num_workers
    ∧ (∀ d ∈ run_async (trainer_ref,
          train_queue TUNE_INSTALLED is_session_enabled) num_workers,
        d = (trainer_ref,
          train_queue TUNE_INSTALLED is_session_enabled)) := by
  refine ⟨?_, ?_, ?_, ?_⟩
  · unfold train_queue
    cases TUNE_INSTALLED <;> cases is_session_enabled <;> rfl
  · intro q hq
    unfold train_queue at hq
    split at hq
    · cases hq
      exact ⟨rfl, rfl⟩
    · cases hq
  · rw [run_async_eq_replicate, List.length_replicate]
  · intro d hd
    rw [run_async_eq_replicate] at hd
    exact List.eq_of_mem_replicate hd

/-- Witness for C10 with Tune installed, an active session, the concrete
trainer and two workers. -/
theorem train_queue_iff_and_same_dispatch_witness :
    ((train_queue true true).isSome = (true && true)
    ∧ (∀ q, train_queue true true = some q →
        q.num_cpus = 0 ∧ q.items = [])
    ∧ (run_async (trainerEx, train_queue true true) 2).length = 2
    ∧ (∀ d ∈ run_async (trainerEx, train_queue true true) 2,
        d = (trainerEx, train_queue true true))) :=
  train_queue_iff_and_same_dispatch true true trainerEx 2

end RayLightning
